import Mathlib

/-!
Verification development for the Citi Bike NYC Streamlit dashboard
(`streamlit_app.py`).  The script loads one table from a warehouse,
applies a chain of optional pandas filters, and renders metrics, a map,
a top-N chart, the filtered table and a "last updated" caption.

The embedding below translates the module-level pandas pipeline into
pure Lean functions over an explicit table model:

* a dataframe is a list of rows together with the list of columns it
  carries (so a *missing column* is representable, distinct from a
  column of nulls);
* a cell is null (NaN/None), an integer, a boolean or a string;
* `pd.to_numeric(·, errors="coerce")`, `.astype("Int64")`,
  `pd.to_datetime(·, errors="coerce")` become cell-level coercions into
  `Option Int` (numeric values are modelled as integers, which covers
  the warehouse schema of this app; datetimes are modelled as integers
  ordered like the calendar, with ISO `YYYY-MM-DDTHH:MM:SS` strings
  parsed into the concatenation of their digits);
* bracket column access `df[c]` raises a `KeyError` when `c` is absent;
  `df.get(c, empty)` yields the empty column instead;
* boolean-mask filtering keeps the rows whose mask value is `True`
  (pandas treats missing mask entries as `False`).
-/

namespace CitiBike

/-- A dataframe cell: NaN/None, an integer, a boolean, or a string. -/
inductive Cell where
  | null
  | int (n : Int)
  | bool (b : Bool)
  | str (s : String)
deriving DecidableEq

/-- The fourteen columns selected by `load_data`'s query. -/
inductive ColName where
  | station_id
  | station_name
  | region_id
  | station_type
  | capacity
  | is_renting
  | is_returning
  | num_bikes_available
  | num_docks_available
  | num_ebikes_available
  | latitude
  | longitude
  | gold_timestamp
  | last_reported_ts
deriving DecidableEq

/-- One station snapshot row; every field is a nullable cell. -/
structure Row where
  station_id : Cell := Cell.null
  station_name : Cell := Cell.null
  region_id : Cell := Cell.null
  station_type : Cell := Cell.null
  capacity : Cell := Cell.null
  is_renting : Cell := Cell.null
  is_returning : Cell := Cell.null
  num_bikes_available : Cell := Cell.null
  num_docks_available : Cell := Cell.null
  num_ebikes_available : Cell := Cell.null
  latitude : Cell := Cell.null
  longitude : Cell := Cell.null
  gold_timestamp : Cell := Cell.null
  last_reported_ts : Cell := Cell.null
deriving DecidableEq

/-- Look a row's cell up by column name. -/
def Row.get (r : Row) : ColName → Cell
  | ColName.station_id => r.station_id
  | ColName.station_name => r.station_name
  | ColName.region_id => r.region_id
  | ColName.station_type => r.station_type
  | ColName.capacity => r.capacity
  | ColName.is_renting => r.is_renting
  | ColName.is_returning => r.is_returning
  | ColName.num_bikes_available => r.num_bikes_available
  | ColName.num_docks_available => r.num_docks_available
  | ColName.num_ebikes_available => r.num_ebikes_available
  | ColName.latitude => r.latitude
  | ColName.longitude => r.longitude
  | ColName.gold_timestamp => r.gold_timestamp
  | ColName.last_reported_ts => r.last_reported_ts

/-- A dataframe: the columns it carries and its rows.  A row field is
only meaningful when its column is listed in `cols`; this lets the model
express a table from which an expected column is missing. -/
structure Table where
  cols : List ColName
  rows : List Row
deriving DecidableEq

/-- Line 58's `df.copy()`: pandas produces a fresh frame with the same
contents; in the value model it is the identical table value. -/
def Table.copy (t : Table) : Table :=
  { cols := t.cols, rows := t.rows }

/-- Models `df.get(c, pd.Series(dtype="float"))`: the cells of column `c`, or
the empty series when the column is absent. -/
def Table.getColD (t : Table) (c : ColName) : List Cell :=
  if c ∈ t.cols then t.rows.map (fun r => r.get c) else []

/-- The error a bracket access `df[c]` raises on a missing column. -/
inductive DFError where
  | keyError (c : ColName)
deriving DecidableEq

instance {ε α : Type} [DecidableEq ε] [DecidableEq α] :
    DecidableEq (Except ε α) := fun x y =>
  match x, y with
  | Except.ok a, Except.ok b =>
    if h : a = b then isTrue (h ▸ rfl)
    else isFalse (fun hh => h (Except.ok.inj hh))
  | Except.error a, Except.error b =>
    if h : a = b then isTrue (h ▸ rfl)
    else isFalse (fun hh => h (Except.error.inj hh))
  | Except.ok _, Except.error _ => isFalse (fun hh => Except.noConfusion hh)
  | Except.error _, Except.ok _ => isFalse (fun hh => Except.noConfusion hh)

/-- Models `pd.to_numeric(x, errors="coerce")` on one cell: numbers pass
through, booleans become 0/1, numeric strings parse, everything else
becomes NaN (`none`).  Numeric values are modelled as integers. -/
def toNumeric : Cell → Option Int
  | Cell.null => none
  | Cell.int n => some n
  | Cell.bool b => some (if b then 1 else 0)
  | Cell.str s => s.toInt?

/-- Models `.astype("Int64")` on one flag cell: null maps to `<NA>` (`none`),
booleans to 0/1, integers pass through.  (On a non-numeric string pandas
would raise; the loader's schema types the flag columns as
boolean/numeric, and numeric strings are modelled via parsing.) -/
def astypeInt64 : Cell → Option Int
  | Cell.null => none
  | Cell.int n => some n
  | Cell.bool b => some (if b then 1 else 0)
  | Cell.str s => s.toInt?

/-- Parse an ISO `YYYY-MM-DDTHH:MM:SS` string into the number formed by
concatenating its fourteen digits — an integer encoding that orders
datetimes exactly like the calendar. -/
def parseIso (s : String) : Option Int :=
  match s.data with
  | [y1, y2, y3, y4, '-', m1, m2, '-', d1, d2, 'T',
     h1, h2, ':', n1, n2, ':', s1, s2] =>
    if ([y1, y2, y3, y4, m1, m2, d1, d2, h1, h2, n1, n2, s1, s2].all
          Char.isDigit) then
      some (Int.ofNat
        ([y1, y2, y3, y4, m1, m2, d1, d2, h1, h2, n1, n2, s1, s2].foldl
          (fun a c => a * 10 + (c.toNat - 48)) 0))
    else none
  | _ => none

/-- Models `pd.to_datetime(x, errors="coerce")` on one cell: warehouse
timestamp values (modelled as integers ordered like time) pass through,
ISO strings parse, nulls and unparseable values become NaT (`none`). -/
def parseDatetime : Cell → Option Int
  | Cell.null => none
  | Cell.int t => some t
  | Cell.bool _ => none
  | Cell.str s => parseIso s

/-- Maximum of a list of integers, `none` on the empty list — the
skipna `.max()` of a series whose non-null values are `l`. -/
def listMax? : List Int → Option Int
  | [] => none
  | x :: xs =>
    match listMax? xs with
    | none => some x
    | some m => some (max x m)

/-- Minimum of a list of integers, `none` on the empty list. -/
def listMin? : List Int → Option Int
  | [] => none
  | x :: xs =>
    match listMin? xs with
    | none => some x
    | some m => some (min x m)

/-- Line 39: the region choices — the distinct non-null region values
when the column exists, else `[]`.  (The source also sorts them; the
order only affects widget display and no claim, so it is omitted.) -/
def regions (df : Table) : List Cell :=
  ((df.getColD ColName.region_id).filter (fun c => c ≠ Cell.null)).dedup

/-- Line 40: the station-type choices, same shape as `regions`. -/
def types (df : Table) : List Cell :=
  ((df.getColD ColName.station_type).filter (fun c => c ≠ Cell.null)).dedup

/-- Line 47: `pd.to_numeric(df.get("CAPACITY", …), errors="coerce")`,
kept as the list of non-null coerced values (what `.dropna()`, `.min()`
and `.max()` consume). -/
def capVals (df : Table) : List Int :=
  (df.getColD ColName.capacity).filterMap toNumeric

/-- Line 48: `int(cap_series.min())` if any value survives coercion,
else 0.  (Capacities are integral, so `int(·)` truncation is exact.) -/
def capMin (df : Table) : Int :=
  (listMin? (capVals df)).getD 0

/-- Line 49: `int(cap_series.max())` if any value survives coercion,
else 0. -/
def capMax (df : Table) : Int :=
  (listMax? (capVals df)).getD 0

/-! ### The regex model for `.str.contains`

Line 71 calls `f["STATION_NAME"].str.contains(search, case=False,
na=False)`, whose default is `regex=True`: the search text is a Python
regular expression, searched unanchored and case-insensitively, and a
missing name yields `False`.  The model covers the regex fragment made
of literal characters and the wildcard `'.'` (which matches any
character except a newline); a pattern containing any other
metacharacter is outside the modelled fragment — `reTokens?` returns
`none` there, and `nameMatches` returns `false` as an explicit
out-of-model marker (Python may match differently or raise on an
invalid pattern).  Theorems about the search filter therefore carry the
hypothesis that the pattern tokenizes. -/

/-- Python regex metacharacters. -/
def metaChars : List Char :=
  ['.', '^', '$', '*', '+', '?', '\x7b', '\x7d', '[', ']', '\\', '|',
   '(', ')']

/-- One token of the modelled regex fragment. -/
inductive RTok where
  | lit (c : Char)
  | anyc
deriving DecidableEq

/-- Tokenize a pattern: `'.'` becomes the wildcard, other
metacharacters are outside the fragment, everything else is a literal. -/
def reTokens? : List Char → Option (List RTok)
  | [] => some []
  | c :: cs =>
    match reTokens? cs with
    | none => none
    | some ts =>
      if c = '.' then some (RTok.anyc :: ts)
      else if c ∈ metaChars then none
      else some (RTok.lit c :: ts)

/-- Case-insensitive character equality (re.IGNORECASE). -/
def ciEq (a b : Char) : Bool :=
  a.toLower == b.toLower

/-- Does one token match one character? -/
def tokMatch : RTok → Char → Bool
  | RTok.lit a, c => ciEq a c
  | RTok.anyc, c => !(c == '\n')

/-- Match the token list against a prefix of `s`. -/
def reMatchHere : List RTok → List Char → Bool
  | [], _ => true
  | _ :: _, [] => false
  | t :: ts, c :: cs => tokMatch t c && reMatchHere ts cs

/-- Unanchored regex search: some suffix of `s` starts with a match. -/
def reSearch (toks : List RTok) (s : List Char) : Bool :=
  (List.range (s.length + 1)).any (fun i => reMatchHere toks (s.drop i))

/-- Case-insensitive prefix test on character lists. -/
def ciIsPrefix : List Char → List Char → Bool
  | [], _ => true
  | _ :: _, [] => false
  | a :: as, b :: bs => ciEq a b && ciIsPrefix as bs

/-- Case-insensitive unanchored substring containment — what the spec
means by "contains s as a case-insensitive unanchored substring". -/
def ciContainsSub (p s : List Char) : Bool :=
  (List.range (s.length + 1)).any (fun i => ciIsPrefix p (s.drop i))

/-- String-level wrapper for `ciContainsSub`. -/
def ciContainsStr (p s : String) : Bool :=
  ciContainsSub p.data s.data

/-- Line 71's per-cell predicate: missing names give `na=False`; string
names are regex-searched case-insensitively. -/
def nameMatches (search : String) : Cell → Bool
  | Cell.str s =>
    match reTokens? search.data with
    | some toks => reSearch toks s.data
    | none => false
  | _ => false

/-! ### The filter pipeline (lines 57–71) -/

/-- The six sidebar filter parameters (lines 43–55). -/
structure Params where
  sel_regions : List Cell
  sel_type : String
  cap_rng : Int × Int
  renting_opt : String
  returning_opt : String
  search : String
deriving DecidableEq

/-- All widgets at their "no restriction" value; the capacity slider's
default is its full range `(cap_min, cap_max)` when `cap_max > 0` and
`(0, 0)` otherwise (line 50). -/
def defaultParams (df : Table) : Params :=
  { sel_regions := []
    sel_type := "All"
    cap_rng := if 0 < capMax df then (capMin df, capMax df) else (0, 0)
    renting_opt := "All"
    returning_opt := "All"
    search := "" }

/-- Lines 59–60: `if regions and sel_regions: f = f[f["REGION_ID"].isin(sel_regions)]`. -/
def regionStep (df : Table) (p : Params) (t : Table) : Table :=
  if regions df ≠ [] ∧ p.sel_regions ≠ [] then
    { t with rows := t.rows.filter (fun r =>
        p.sel_regions.contains (r.get ColName.region_id)) }
  else t

/-- Lines 61–62: `if sel_type != "All" and "STATION_TYPE" in f.columns:
f = f[f["STATION_TYPE"] == sel_type]`. -/
def typeStep (p : Params) (t : Table) : Table :=
  if p.sel_type ≠ "All" ∧ ColName.station_type ∈ t.cols then
    { t with rows := t.rows.filter (fun r =>
        r.get ColName.station_type == Cell.str p.sel_type) }
  else t

/-- Lines 64–65: coerce the capacity column and keep the rows whose
coerced value lies in `[lo, hi]`; a NaN compares `False` on both sides,
so rows with missing/non-numeric capacity are dropped. -/
def capacityFilter (lo hi : Int) (t : Table) : Table :=
  { t with rows := t.rows.filter (fun r =>
      match toNumeric (r.get ColName.capacity) with
      | some c => decide (lo ≤ c ∧ c ≤ hi)
      | none => false) }

/-- Line 63: the capacity filter applies whenever the column exists and
`cap_max > 0` — including when the slider sits at its full default. -/
def capacityStep (df : Table) (p : Params) (t : Table) : Table :=
  if ColName.capacity ∈ t.cols ∧ 0 < capMax df then
    capacityFilter p.cap_rng.1 p.cap_rng.2 t
  else t

/-- Lines 67/69: `f[f[c].astype("Int64") == (1 if opt == "Yes" else 0)]`.
A missing flag compares to `<NA>`, which pandas treats as `False` in a
boolean mask, so the row is dropped. -/
def flagFilter (c : ColName) (opt : String) (t : Table) : Table :=
  { t with rows := t.rows.filter (fun r =>
      astypeInt64 (r.get c) == some (if opt = "Yes" then 1 else 0)) }

/-- Line 66: the renting filter applies when a specific value is chosen
and the column exists. -/
def rentingStep (p : Params) (t : Table) : Table :=
  if p.renting_opt ≠ "All" ∧ ColName.is_renting ∈ t.cols then
    flagFilter ColName.is_renting p.renting_opt t
  else t

/-- Line 68: the returning filter, same shape. -/
def returningStep (p : Params) (t : Table) : Table :=
  if p.returning_opt ≠ "All" ∧ ColName.is_returning ∈ t.cols then
    flagFilter ColName.is_returning p.returning_opt t
  else t

/-- Line 71's row filter. -/
def nameFilter (search : String) (t : Table) : Table :=
  { t with rows := t.rows.filter (fun r =>
      nameMatches search (r.get ColName.station_name)) }

/-- Line 70: the search filter applies when the text is non-empty and
the name column exists. -/
def nameStep (p : Params) (t : Table) : Table :=
  if p.search ≠ "" ∧ ColName.station_name ∈ t.cols then
    nameFilter p.search t
  else t

/-- Lines 57–71: `f = df.copy()` followed by the six conditional
filters, in source order. -/
def applyFilters (df : Table) (p : Params) : Table :=
  nameStep p (returningStep p (rentingStep p
    (capacityStep df p (typeStep p (regionStep df p (Table.copy df))))))

/-! ### Aggregation and presentation (lines 73–115) -/

/-- Lines 76–78: `int(pd.to_numeric(f.get(c, empty), errors="coerce")
.fillna(0).sum())` — the sum of the column's cells with missing or
non-numeric values coerced to 0, and the empty series (absent column)
summing to 0. -/
def sumColFilled (t : Table) (c : ColName) : Int :=
  ((t.getColD c).map (fun x => (toNumeric x).getD 0)).sum

/-- Lines 80–85: when both coordinate columns exist the map section
runs; `f[["LATITUDE", "LONGITUDE", "STATION_NAME"]]` raises a KeyError
if the name column is absent, and otherwise `.dropna()` keeps exactly
the rows in which all three selected cells are non-null.  `none` means
the map section is skipped.  (The subsequent `.rename` only relabels
the two coordinate columns, and `st.map`'s handling of its
`size='CAPACITY'` argument belongs to the rendering library, which the
specification treats as an external collaborator.) -/
def mapView (f : Table) : Option (Except DFError (List Row)) :=
  if ColName.latitude ∈ f.cols ∧ ColName.longitude ∈ f.cols then
    some (if ColName.station_name ∈ f.cols then
      Except.ok (f.rows.filter (fun r =>
        decide (r.get ColName.latitude ≠ Cell.null ∧
          r.get ColName.longitude ≠ Cell.null ∧
          r.get ColName.station_name ≠ Cell.null)))
    else Except.error (DFError.keyError ColName.station_name))
  else none

/-- The non-NaT parsed values of the gold-timestamp column. -/
def parsedGold (t : Table) : List Int :=
  t.rows.filterMap (fun r => parseDatetime (r.get ColName.gold_timestamp))

/-- Lines 113–115: `pd.to_datetime(f["GOLD_TIMESTAMP"],
errors="coerce").max()`, shown only when non-NaT.  The bracket access
raises a KeyError when the column is absent; only the gold column is
read — the last-reported column never is. -/
def lastUpdated (t : Table) : Except DFError (Option Int) :=
  if ColName.gold_timestamp ∈ t.cols then
    Except.ok (listMax? (parsedGold t))
  else Except.error (DFError.keyError ColName.gold_timestamp)

/-- The "last updated" value in the specification's words: the maximum
over the parsed values of whichever timestamp columns are present among
the gold/snapshot and last-reported timestamps (the raw-event timestamp
belongs to the other variant's schema), unparseable values discarded. -/
def specLastUpdated (t : Table) : Option Int :=
  listMax? ((([ColName.gold_timestamp, ColName.last_reported_ts].filter
      (fun c => c ∈ t.cols)).map (fun c =>
        t.rows.filterMap (fun r => parseDatetime (r.get c)))).flatten)

/-- What one render pass displays.  `topShown` records whether the
top-N chart section runs (line 89's presence guard); the chart's sort
order is not part of this structure. -/
structure Outputs where
  stations : Int
  bikes : Int
  docks : Int
  ebikes : Int
  mapShown : Bool
  mapRows : List Row
  topShown : Bool
  dataTable : Table
  caption : Option Int
deriving DecidableEq

/-- Assemble the outputs of one pass over the filtered table `f`. -/
def mkOutputs (f : Table) (shown : Bool) (rs : List Row)
    (cap : Option Int) : Outputs :=
  { stations := (f.rows.length : Int)
    bikes := sumColFilled f ColName.num_bikes_available
    docks := sumColFilled f ColName.num_docks_available
    ebikes := sumColFilled f ColName.num_ebikes_available
    mapShown := shown
    mapRows := rs
    topShown := decide (ColName.station_name ∈ f.cols ∧
      ColName.num_bikes_available ∈ f.cols)
    dataTable := f
    caption := cap }

/-- One full render pass after `load_data` (lines 38–115): filter, the
four metrics, the map section, the top-N guard, the data table and the
caption.  An uncaught KeyError from the map selection or the caption
aborts the pass. -/
def renderPass (df : Table) (p : Params) : Except DFError Outputs :=
  match mapView (applyFilters df p), lastUpdated (applyFilters df p) with
  | some (Except.error e), _ => Except.error e
  | some (Except.ok _), Except.error e => Except.error e
  | some (Except.ok rs), Except.ok cap =>
    Except.ok (mkOutputs (applyFilters df p) true rs cap)
  | none, Except.error e => Except.error e
  | none, Except.ok cap =>
    Except.ok (mkOutputs (applyFilters df p) false [] cap)

/-- The script's two table variables: `df` (line 36) and `f`
(lines 57–71). -/
structure Store where
  df : Table
  f : Table
deriving DecidableEq

/-- The script's assignments, step by step: line 58 rebinds `f` to a
copy of `df`, and every later statement rebinds only `f`.  All pandas
operations used (copy, boolean-mask indexing, `assign`, `rename`,
`dropna`, `head`) return new frames, so each is embedded as a pure
function and no assignment ever targets `df`. -/
def scriptRun (df0 : Table) (p : Params) : Store :=
  let s : Store := { df := df0, f := df0 }
  let s := { s with f := s.df.copy }
  let s := { s with f := regionStep s.df p s.f }
  let s := { s with f := typeStep p s.f }
  let s := { s with f := capacityStep s.df p s.f }
  let s := { s with f := rentingStep p s.f }
  let s := { s with f := returningStep p s.f }
  let s := { s with f := nameStep p s.f }
  s

/-! ### Basic lemmas about the embedding -/

theorem copy_eq (t : Table) : Table.copy t = t := rfl

theorem listMax?_eq_none_iff (l : List Int) : listMax? l = none ↔ l = [] := by
  cases l with
  | nil => simp [listMax?]
  | cons x xs => cases h : listMax? xs <;> simp [listMax?, h]

theorem listMin?_eq_none_iff (l : List Int) : listMin? l = none ↔ l = [] := by
  cases l with
  | nil => simp [listMin?]
  | cons x xs => cases h : listMin? xs <;> simp [listMin?, h]

theorem listMax?_spec (l : List Int) (m : Int) (h : listMax? l = some m) :
    m ∈ l ∧ ∀ x ∈ l, x ≤ m := by
  induction l generalizing m with
  | nil => simp [listMax?] at h
  | cons x xs ih =>
    cases hx : listMax? xs with
    | none =>
      have hnil : xs = [] := (listMax?_eq_none_iff xs).mp hx
      subst hnil
      simp [listMax?] at h
      subst h
      simp
    | some m' =>
      simp only [listMax?, hx, Option.some.injEq] at h
      rcases ih m' hx with ⟨hmem, hub⟩
      subst h
      refine ⟨?_, ?_⟩
      · rcases le_total x m' with hle | hle
        · rw [max_eq_right hle]
          exact List.mem_cons_of_mem _ hmem
        · rw [max_eq_left hle]
          exact List.mem_cons_self _ _
      · intro y hy
        rcases List.mem_cons.mp hy with rfl | hy
        · exact le_max_left _ _
        · exact le_trans (hub y hy) (le_max_right _ _)

theorem listMin?_spec (l : List Int) (m : Int) (h : listMin? l = some m) :
    m ∈ l ∧ ∀ x ∈ l, m ≤ x := by
  induction l generalizing m with
  | nil => simp [listMin?] at h
  | cons x xs ih =>
    cases hx : listMin? xs with
    | none =>
      have hnil : xs = [] := (listMin?_eq_none_iff xs).mp hx
      subst hnil
      simp [listMin?] at h
      subst h
      simp
    | some m' =>
      simp only [listMin?, hx, Option.some.injEq] at h
      rcases ih m' hx with ⟨hmem, hlb⟩
      subst h
      refine ⟨?_, ?_⟩
      · rcases le_total x m' with hle | hle
        · rw [min_eq_left hle]
          exact List.mem_cons_self _ _
        · rw [min_eq_right hle]
          exact List.mem_cons_of_mem _ hmem
      · intro y hy
        rcases List.mem_cons.mp hy with rfl | hy
        · exact min_le_left _ _
        · exact le_trans (min_le_right _ _) (hlb y hy)

theorem capVals_bounds (df : Table) (c : Int) (hc : c ∈ capVals df) :
    capMin df ≤ c ∧ c ≤ capMax df := by
  have hne : capVals df ≠ [] := List.ne_nil_of_mem hc
  constructor
  · cases hmin : listMin? (capVals df) with
    | none => exact absurd ((listMin?_eq_none_iff _).mp hmin) hne
    | some m =>
      have := (listMin?_spec _ _ hmin).2 c hc
      simpa [capMin, hmin] using this
  · cases hmax : listMax? (capVals df) with
    | none => exact absurd ((listMax?_eq_none_iff _).mp hmax) hne
    | some m =>
      have := (listMax?_spec _ _ hmax).2 c hc
      simpa [capMax, hmax] using this

theorem regionStep_skip (df : Table) (p : Params) (t : Table)
    (h : p.sel_regions = []) : regionStep df p t = t := by
  simp [regionStep, h]

theorem typeStep_skip (p : Params) (t : Table)
    (h : p.sel_type = "All") : typeStep p t = t := by
  simp [typeStep, h]

theorem rentingStep_skip (p : Params) (t : Table)
    (h : p.renting_opt = "All") : rentingStep p t = t := by
  simp [rentingStep, h]

theorem returningStep_skip (p : Params) (t : Table)
    (h : p.returning_opt = "All") : returningStep p t = t := by
  simp [returningStep, h]

theorem nameStep_skip (p : Params) (t : Table)
    (h : p.search = "") : nameStep p t = t := by
  simp [nameStep, h]

theorem capacityStep_skip (df : Table) (p : Params) (t : Table)
    (h : ¬(ColName.capacity ∈ t.cols ∧ 0 < capMax df)) :
    capacityStep df p t = t := by
  simp only [capacityStep, if_neg h]

theorem cols_regionStep (df : Table) (p : Params) (t : Table) :
    (regionStep df p t).cols = t.cols := by
  unfold regionStep; split <;> rfl

theorem cols_typeStep (p : Params) (t : Table) :
    (typeStep p t).cols = t.cols := by
  unfold typeStep; split <;> rfl

theorem cols_capacityStep (df : Table) (p : Params) (t : Table) :
    (capacityStep df p t).cols = t.cols := by
  unfold capacityStep; split <;> rfl

theorem cols_rentingStep (p : Params) (t : Table) :
    (rentingStep p t).cols = t.cols := by
  unfold rentingStep; split <;> rfl

theorem cols_returningStep (p : Params) (t : Table) :
    (returningStep p t).cols = t.cols := by
  unfold returningStep; split <;> rfl

theorem cols_nameStep (p : Params) (t : Table) :
    (nameStep p t).cols = t.cols := by
  unfold nameStep; split <;> rfl

theorem cols_applyFilters (df : Table) (p : Params) :
    (applyFilters df p).cols = df.cols := by
  unfold applyFilters
  rw [cols_nameStep, cols_returningStep, cols_rentingStep,
    cols_capacityStep, cols_typeStep, cols_regionStep, copy_eq]

/-- The fourteen columns of a table produced by `load_data`'s query. -/
def allCols : List ColName :=
  [ColName.station_id, ColName.station_name, ColName.region_id,
   ColName.station_type, ColName.capacity, ColName.is_renting,
   ColName.is_returning, ColName.num_bikes_available,
   ColName.num_docks_available, ColName.num_ebikes_available,
   ColName.latitude, ColName.longitude, ColName.gold_timestamp,
   ColName.last_reported_ts]

/-! ### Claim C1 -/

/-- A loaded table with one numeric and one missing capacity. -/
def c1Table : Table :=
  { cols := allCols
    rows := [{ capacity := Cell.int 5 }, { capacity := Cell.null }] }

/-- Claim C1 is false as stated: on a loaded table holding a row with
capacity 5 and a row with missing capacity, every filter at its
no-restriction default (no regions, type "All", capacity slider at its
full default range, renting/returning "All", empty search) does not
return the loaded table — the capacity filter is active whenever the
column exists and `cap_max > 0`, and it drops the missing-capacity
row even at the full default range. -/
theorem c1_counterexample :
    applyFilters c1Table (defaultParams c1Table) ≠ c1Table ∧
    (applyFilters c1Table (defaultParams c1Table)).rows =
      [{ capacity := Cell.int 5 }] := by
  decide

/-- Claim C1 (amended): with every filter parameter at its
no-restriction value the filtered table equals the loaded table,
provided the capacity range filter cannot drop anything — the capacity
column is absent, or `cap_max ≤ 0`, or every row's capacity coerces to
a number.  (Otherwise the capacity filter is active even at its full
default range and excludes exactly the rows with missing or non-numeric
capacity.) -/
theorem c1_amended (df : Table)
    (h : ColName.capacity ∈ df.cols → 0 < capMax df →
      ∀ r ∈ df.rows,
        (toNumeric (Row.get r ColName.capacity)).isSome = true) :
    applyFilters df (defaultParams df) = df := by
  have hcap : capacityStep df (defaultParams df) df = df := by
    by_cases hc : ColName.capacity ∈ df.cols ∧ 0 < capMax df
    · obtain ⟨hcm, hpos⟩ := hc
      have hrng : (defaultParams df).cap_rng = (capMin df, capMax df) := by
        simp [defaultParams, if_pos hpos]
      unfold capacityStep
      rw [if_pos ⟨hcm, hpos⟩, hrng]
      unfold capacityFilter
      have hfe : df.rows.filter (fun r =>
          match toNumeric (Row.get r ColName.capacity) with
          | some c => decide ((capMin df, capMax df).1 ≤ c ∧
              c ≤ (capMin df, capMax df).2)
          | none => false) = df.rows := by
        rw [List.filter_eq_self]
        intro r hr
        cases hc' : toNumeric (Row.get r ColName.capacity) with
        | none =>
          have := h hcm hpos r hr
          rw [hc'] at this
          simp at this
        | some c =>
          have hcv : c ∈ capVals df := by
            unfold capVals Table.getColD
            rw [if_pos hcm]
            exact List.mem_filterMap.mpr
              ⟨Row.get r ColName.capacity, List.mem_map_of_mem _ hr, hc'⟩
          obtain ⟨h1, h2⟩ := capVals_bounds df c hcv
          simp [hc', h1, h2]
      rw [hfe]
    · exact capacityStep_skip df _ df hc
  unfold applyFilters
  rw [copy_eq, regionStep_skip _ _ _ rfl, typeStep_skip _ _ rfl, hcap,
    rentingStep_skip _ _ rfl, returningStep_skip _ _ rfl,
    nameStep_skip _ _ rfl]

/-- A loaded table every row of which has numeric capacity. -/
def c1WTable : Table :=
  { cols := allCols
    rows := [{ capacity := Cell.int 3 }, { capacity := Cell.int 7 }] }

/-- Witness for the amended C1 at a concrete all-numeric table. -/
theorem c1_amended_witness :
    applyFilters c1WTable (defaultParams c1WTable) = c1WTable :=
  c1_amended c1WTable (by decide)

/-! ### Claim C2 -/

/-- A loaded table whose only row has a null gold timestamp and the
claim's last-reported value. -/
def c2Table : Table :=
  { cols := allCols
    rows := [{ gold_timestamp := Cell.null,
               last_reported_ts := Cell.str ("2024-01-01T00:00:00") }] }

/-- Claim C2 is false as stated: with `gold_timestamp` null and
`last_reported_ts` `"2024-01-01T00:00:00"`, the code reads only the
gold column, finds no parseable value, and shows no caption — while
the claim's maximum over the present timestamp columns is the parsed
last-reported value, which the claim says is displayed. -/
theorem c2_counterexample :
    lastUpdated c2Table = Except.ok none ∧
    specLastUpdated c2Table = some 20240101000000 ∧
    Except.ok (specLastUpdated c2Table) ≠ lastUpdated c2Table := by
  decide

/-- Claim C2 (amended): the caption consults only the gold/snapshot
timestamp column.  When that column is present, no caption is shown iff
no gold value parses as a datetime, and any displayed value is the
maximum of the parsed gold values; the last-reported column is never
consulted.  When the gold column is missing, the access raises a
KeyError instead of silently omitting the caption. -/
theorem c2_amended (t : Table) :
    (ColName.gold_timestamp ∉ t.cols →
      lastUpdated t = Except.error (DFError.keyError ColName.gold_timestamp)) ∧
    (ColName.gold_timestamp ∈ t.cols →
      ((lastUpdated t = Except.ok none ↔ parsedGold t = []) ∧
       ∀ v : Int, lastUpdated t = Except.ok (some v) →
         v ∈ parsedGold t ∧ ∀ w ∈ parsedGold t, w ≤ v)) := by
  constructor
  · intro h
    simp [lastUpdated, h]
  · intro h
    constructor
    · simp only [lastUpdated, if_pos h, Except.ok.injEq]
      exact listMax?_eq_none_iff _
    · intro v hv
      rw [lastUpdated, if_pos h] at hv
      simp only [Except.ok.injEq] at hv
      exact listMax?_spec _ _ hv

/-- A loaded table with one parseable and one null gold timestamp. -/
def c2WTable : Table :=
  { cols := allCols
    rows := [{ gold_timestamp := Cell.int 100 },
             { gold_timestamp := Cell.null }] }

/-- Witness for the amended C2: on `c2WTable` the displayed value 100
is a parsed gold value and bounds all parsed gold values. -/
theorem c2_amended_witness :
    (100 : Int) ∈ parsedGold c2WTable ∧
    ∀ w ∈ parsedGold c2WTable, w ≤ 100 :=
  ((c2_amended c2WTable).2 (by decide)).2 100 (by decide)

/-! ### Claim C3 -/

/-- Claim C3 (confirmed): when the capacity range filter is active —
capacity column present and `cap_max > 0` — with every other filter at
its no-restriction value and inclusive slider bounds `[lo, hi]`, a row
with numeric capacity `c` is in the filtered output iff
`lo ≤ c ≤ hi`, and a row whose capacity is missing or non-numeric is
excluded. -/
theorem c3_capacity_filter (df : Table) (lo hi : Int)
    (hc : ColName.capacity ∈ df.cols) (hm : 0 < capMax df) (r : Row)
    (hr : r ∈ df.rows) :
    (∀ c : Int, toNumeric (Row.get r ColName.capacity) = some c →
      (r ∈ (applyFilters df
          { sel_regions := [], sel_type := "All", cap_rng := (lo, hi),
            renting_opt := "All", returning_opt := "All",
            search := "" }).rows ↔ lo ≤ c ∧ c ≤ hi)) ∧
    (toNumeric (Row.get r ColName.capacity) = none →
      r ∉ (applyFilters df
          { sel_regions := [], sel_type := "All", cap_rng := (lo, hi),
            renting_opt := "All", returning_opt := "All",
            search := "" }).rows) := by
  have hred : applyFilters df
      { sel_regions := [], sel_type := "All", cap_rng := (lo, hi),
        renting_opt := "All", returning_opt := "All", search := "" } =
      capacityFilter lo hi df := by
    unfold applyFilters
    rw [copy_eq, regionStep_skip _ _ _ rfl, typeStep_skip _ _ rfl]
    unfold capacityStep
    rw [if_pos ⟨hc, hm⟩]
    rw [rentingStep_skip _ _ rfl, returningStep_skip _ _ rfl,
      nameStep_skip _ _ rfl]
  rw [hred]
  constructor
  · intro c hc'
    unfold capacityFilter
    simp [List.mem_filter, hr, hc']
  · intro hc'
    unfold capacityFilter
    simp [List.mem_filter, hc']

/-- A loaded table with two numeric capacities. -/
def c3Table : Table :=
  { cols := allCols
    rows := [{ capacity := Cell.int 10 }, { capacity := Cell.int 30 }] }

/-- Witness for C3: with bounds `[5, 20]` the capacity-10 row is kept
iff `5 ≤ 10 ≤ 20`. -/
theorem c3_capacity_filter_witness :
    ({ capacity := Cell.int 10 } : Row) ∈ (applyFilters c3Table
      { sel_regions := [], sel_type := "All", cap_rng := (5, 20),
        renting_opt := "All", returning_opt := "All",
        search := "" }).rows ↔ (5 : Int) ≤ 10 ∧ (10 : Int) ≤ 20 :=
  (c3_capacity_filter c3Table 5 20 (by decide) (by decide)
    { capacity := Cell.int 10 } (by decide)).1 10 (by decide)

/-! ### Claim C4 -/

theorem reTokens?_noMeta (p : List Char) (h : ∀ c ∈ p, c ∉ metaChars) :
    reTokens? p = some (p.map RTok.lit) := by
  induction p with
  | nil => rfl
  | cons c cs ih =>
    have hc : c ∉ metaChars := h c (List.mem_cons_self _ _)
    have hcs := ih (fun x hx => h x (List.mem_cons_of_mem _ hx))
    have hdot : ¬(c = '.') := fun hh => hc (by rw [hh]; decide)
    simp [reTokens?, hcs, hdot, hc]

theorem reMatchHere_lit (p : List Char) (l : List Char) :
    reMatchHere (p.map RTok.lit) l = ciIsPrefix p l := by
  induction p generalizing l with
  | nil => rfl
  | cons a as ih =>
    cases l with
    | nil => rfl
    | cons b bs => simp [reMatchHere, ciIsPrefix, tokMatch, ih]

theorem reSearch_lit (p : List Char) (l : List Char) :
    reSearch (p.map RTok.lit) l = ciContainsSub p l := by
  unfold reSearch ciContainsSub
  simp only [reMatchHere_lit]

/-- A loaded table whose only row is a station named "X". -/
def c4Table : Table :=
  { cols := allCols
    rows := [{ station_name := Cell.str ("X") }] }

/-- Claim C4 is false as stated: the search text is handed to pandas
`.str.contains` with its default `regex=True`, so a regex metacharacter
is not matched literally — the search "." keeps the station named "X"
even though "X" does not contain "." as a substring (case-insensitively
or otherwise). -/
theorem c4_counterexample :
    (nameFilter (".") c4Table).rows = [{ station_name := Cell.str ("X") }] ∧
    ciContainsStr (".") "X" = false := by
  decide

/-- Claim C4 (amended): the search text is interpreted as a
case-insensitive, unanchored regular expression; for search strings
containing no regex metacharacter it behaves as the claim states — the
name filter keeps a row iff its name is present and contains the search
text as a case-insensitive unanchored substring, and rows with missing
names never match. -/
theorem c4_amended (s : String) (t : Table) (r : Row) (_hs : s ≠ "")
    (hmeta : ∀ c ∈ s.data, c ∉ metaChars) (hr : r ∈ t.rows) :
    r ∈ (nameFilter s t).rows ↔
      ∃ nm : String, Row.get r ColName.station_name = Cell.str nm ∧
        ciContainsStr s nm = true := by
  unfold nameFilter
  simp only [List.mem_filter, hr, true_and]
  cases hcell : Row.get r ColName.station_name with
  | null => simp [nameMatches]
  | int n => simp [nameMatches]
  | bool b => simp [nameMatches]
  | str nm =>
    simp only [nameMatches, reTokens?_noMeta s.data hmeta, Cell.str.injEq]
    rw [reSearch_lit]
    constructor
    · intro hsearch
      exact ⟨nm, rfl, hsearch⟩
    · rintro ⟨nm', rfl, hsub⟩
      exact hsub

/-- A loaded table whose only row is a station named "ABCStation". -/
def c4WTable : Table :=
  { cols := allCols
    rows := [{ station_name := Cell.str ("ABCStation") }] }

/-- Witness for the amended C4 at search "abc" against "ABCStation". -/
theorem c4_amended_witness :
    ({ station_name := Cell.str ("ABCStation") } : Row) ∈
      (nameFilter ("abc") c4WTable).rows ↔
    ∃ nm : String,
      Row.get { station_name := Cell.str ("ABCStation") }
        ColName.station_name = Cell.str nm ∧
      ciContainsStr ("abc") nm = true :=
  c4_amended ("abc") c4WTable { station_name := Cell.str ("ABCStation") }
    (by decide) (by decide) (by decide)

/-! ### Claim C6 -/

/-- A filtered table whose only row has both coordinates but no name. -/
def c6Table : Table :=
  { cols := allCols
    rows := [{ latitude := Cell.int 41, longitude := Cell.int (-74) }] }

/-- Claim C6 is false as stated: `.dropna()` runs over all three
selected columns — latitude, longitude and station name — so a row with
both coordinates present but a missing station name is dropped from the
map view, although the claim says it is included. -/
theorem c6_counterexample :
    mapView c6Table = some (Except.ok []) ∧
    ({ latitude := Cell.int 41, longitude := Cell.int (-74) } : Row)
      ∈ c6Table.rows ∧
    Row.get ({ latitude := Cell.int 41, longitude := Cell.int (-74) } :
      Row) ColName.latitude ≠ Cell.null ∧
    Row.get ({ latitude := Cell.int 41, longitude := Cell.int (-74) } :
      Row) ColName.longitude ≠ Cell.null := by
  decide

/-- Claim C6 (amended): when the latitude, longitude and name columns
are all present, the map view contains exactly the filtered rows in
which latitude, longitude AND station name are all non-null — a row is
dropped when any of the three is missing (so also on a missing name),
and missing values are never zero-filled. -/
theorem c6_amended (f : Table) (h1 : ColName.latitude ∈ f.cols)
    (h2 : ColName.longitude ∈ f.cols)
    (h3 : ColName.station_name ∈ f.cols) :
    ∃ rs : List Row, mapView f = some (Except.ok rs) ∧
      ∀ r : Row, r ∈ rs ↔ r ∈ f.rows ∧
        Row.get r ColName.latitude ≠ Cell.null ∧
        Row.get r ColName.longitude ≠ Cell.null ∧
        Row.get r ColName.station_name ≠ Cell.null := by
  refine ⟨f.rows.filter (fun r =>
    decide (Row.get r ColName.latitude ≠ Cell.null ∧
      Row.get r ColName.longitude ≠ Cell.null ∧
      Row.get r ColName.station_name ≠ Cell.null)), ?_, ?_⟩
  · simp [mapView, h1, h2, h3]
  · intro r
    simp [List.mem_filter]

/-- A filtered table with one fully-populated row and one row missing
its longitude. -/
def c6WTable : Table :=
  { cols := allCols
    rows := [{ latitude := Cell.int 1, longitude := Cell.int 2,
               station_name := Cell.str ("A") },
             { latitude := Cell.int 1, station_name := Cell.str ("B") }] }

/-- Witness for the amended C6 on a concrete table. -/
theorem c6_amended_witness :
    ∃ rs : List Row, mapView c6WTable = some (Except.ok rs) ∧
      ∀ r : Row, r ∈ rs ↔ r ∈ c6WTable.rows ∧
        Row.get r ColName.latitude ≠ Cell.null ∧
        Row.get r ColName.longitude ≠ Cell.null ∧
        Row.get r ColName.station_name ≠ Cell.null :=
  c6_amended c6WTable (by decide) (by decide) (by decide)

/-! ### Claim C8 -/

/-- Claim C8 (confirmed): with the renting (resp. returning) selector
set to "Yes" or "No" and the flag column present, every row whose flag
is missing is excluded by that filter — the `<NA>` produced by
`.astype("Int64")` equals neither 1 nor 0 in the mask — and with the
selector at "All" the step filters nothing. -/
theorem c8_flag_missing (t : Table) (p : Params) (r : Row)
    (hrent : p.renting_opt = "Yes" ∨ p.renting_opt = "No")
    (hret : p.returning_opt = "Yes" ∨ p.returning_opt = "No")
    (hcr : ColName.is_renting ∈ t.cols)
    (hcret : ColName.is_returning ∈ t.cols) :
    (Row.get r ColName.is_renting = Cell.null →
      r ∉ (rentingStep p t).rows) ∧
    (Row.get r ColName.is_returning = Cell.null →
      r ∉ (returningStep p t).rows) ∧
    (∀ q : Params, q.renting_opt = "All" → rentingStep q t = t) ∧
    (∀ q : Params, q.returning_opt = "All" → returningStep q t = t) := by
  have hne : p.renting_opt ≠ "All" := by
    rcases hrent with h | h <;> simp [h]
  have hne' : p.returning_opt ≠ "All" := by
    rcases hret with h | h <;> simp [h]
  refine ⟨?_, ?_, ?_, ?_⟩
  · intro hnull
    unfold rentingStep
    rw [if_pos ⟨hne, hcr⟩]
    unfold flagFilter
    simp [List.mem_filter, hnull, astypeInt64]
  · intro hnull
    unfold returningStep
    rw [if_pos ⟨hne', hcret⟩]
    unfold flagFilter
    simp [List.mem_filter, hnull, astypeInt64]
  · intro q hq
    exact rentingStep_skip q t hq
  · intro q hq
    exact returningStep_skip q t hq

/-- A filtered table whose only row has both flags missing. -/
def c8Table : Table :=
  { cols := allCols
    rows := [{ station_id := Cell.int 1 }] }

/-- Selectors at "Yes"/"No". -/
def c8Params : Params :=
  { sel_regions := [], sel_type := "All", cap_rng := (0, 0),
    renting_opt := "Yes", returning_opt := "No", search := "" }

/-- Witness for C8: the missing-flag row is excluded by the renting
filter at "Yes". -/
theorem c8_flag_missing_witness :
    ({ station_id := Cell.int 1 } : Row) ∉
      (rentingStep c8Params c8Table).rows :=
  (c8_flag_missing c8Table c8Params { station_id := Cell.int 1 }
    (Or.inl rfl) (Or.inr rfl) (by decide) (by decide)).1 rfl

/-! ### Claim C9 -/

/-- Claim C9 (confirmed): each of the three KPI sums — instantiated at
the available-bikes, available-docks and available-e-bikes columns —
returns 0 on an absent column, returns 0 on a column whose every value
is missing or non-numeric, and is unchanged by adding a row whose value
in that column is missing or non-numeric (such cells are filled with
zero). -/
theorem c9_metric_sums (t : Table) (c : ColName)
    (_hc : c = ColName.num_bikes_available ∨
      c = ColName.num_docks_available ∨
      c = ColName.num_ebikes_available) :
    (c ∉ t.cols → sumColFilled t c = 0) ∧
    ((∀ r ∈ t.rows, toNumeric (Row.get r c) = none) →
      sumColFilled t c = 0) ∧
    (∀ r : Row, toNumeric (Row.get r c) = none →
      sumColFilled { cols := t.cols, rows := r :: t.rows } c =
        sumColFilled t c) := by
  refine ⟨?_, ?_, ?_⟩
  · intro h
    simp [sumColFilled, Table.getColD, h]
  · intro hall
    unfold sumColFilled Table.getColD
    by_cases hmem : c ∈ t.cols
    · rw [if_pos hmem, List.map_map]
      apply List.sum_eq_zero
      intro x hx
      rw [List.mem_map] at hx
      obtain ⟨r, hr, rfl⟩ := hx
      simp [Function.comp, hall r hr]
    · rw [if_neg hmem]
      simp
  · intro r hr
    unfold sumColFilled Table.getColD
    by_cases hmem : c ∈ t.cols
    · simp [hmem, hr]
    · simp [hmem]

/-- A filtered table whose only available-bikes value is missing. -/
def c9Table : Table :=
  { cols := allCols
    rows := [{ num_bikes_available := Cell.null }] }

/-- Witness for C9: the all-missing bikes column sums to 0. -/
theorem c9_metric_sums_witness :
    sumColFilled c9Table ColName.num_bikes_available = 0 :=
  (c9_metric_sums c9Table ColName.num_bikes_available
    (Or.inl rfl)).2.1 (by decide)

/-! ### Claim C7 -/

/-- A loaded table from which only the gold-timestamp column is
missing. -/
def c7Table : Table :=
  { cols := allCols.filter (fun c => c ≠ ColName.gold_timestamp)
    rows := [{ station_id := Cell.int 1 }] }

/-- Claim C7 is false as stated: on a table lacking only the
GOLD_TIMESTAMP column, the render pass does not degrade gracefully —
the caption's bracket access `f["GOLD_TIMESTAMP"]` (line 113) checks
nothing and raises a KeyError. -/
theorem c7_counterexample :
    renderPass c7Table (defaultParams c7Table) =
      Except.error (DFError.keyError ColName.gold_timestamp) := by
  decide

/-- Claim C7 (amended): the sidebar setup, all six filters, the metric
sums, the map-section guard and the top-chart guard do check column
presence and degrade gracefully, so the render pass succeeds on any
table (and any filter parameters within the modelled search fragment)
provided the gold-timestamp column is present and the name column is
present whenever both coordinate columns are; those two are the
exceptions the counterexample forces — the map's column selection
assumes STATION_NAME and the caption assumes GOLD_TIMESTAMP, each
raising a KeyError on a table lacking that column. -/
theorem c7_amended (df : Table) (p : Params)
    (hgold : ColName.gold_timestamp ∈ df.cols)
    (hmap : ColName.latitude ∈ df.cols → ColName.longitude ∈ df.cols →
      ColName.station_name ∈ df.cols)
    (_hsearch : (reTokens? p.search.data).isSome = true) :
    ∃ o : Outputs, renderPass df p = Except.ok o := by
  have hcols := cols_applyFilters df p
  have hlu : lastUpdated (applyFilters df p) =
      Except.ok (listMax? (parsedGold (applyFilters df p))) := by
    unfold lastUpdated
    rw [if_pos (show ColName.gold_timestamp ∈ (applyFilters df p).cols by
      rw [hcols]; exact hgold)]
  by_cases hll : ColName.latitude ∈ (applyFilters df p).cols ∧
      ColName.longitude ∈ (applyFilters df p).cols
  · have hname : ColName.station_name ∈ (applyFilters df p).cols := by
      rw [hcols] at hll ⊢
      exact hmap hll.1 hll.2
    have hmv : mapView (applyFilters df p) = some (Except.ok
        ((applyFilters df p).rows.filter (fun r =>
          decide (Row.get r ColName.latitude ≠ Cell.null ∧
            Row.get r ColName.longitude ≠ Cell.null ∧
            Row.get r ColName.station_name ≠ Cell.null)))) := by
      simp [mapView, hll.1, hll.2, hname]
    have hrp : renderPass df p = Except.ok
        (mkOutputs (applyFilters df p) true
          ((applyFilters df p).rows.filter (fun r =>
            decide (Row.get r ColName.latitude ≠ Cell.null ∧
              Row.get r ColName.longitude ≠ Cell.null ∧
              Row.get r ColName.station_name ≠ Cell.null)))
          (listMax? (parsedGold (applyFilters df p)))) := by
      unfold renderPass
      rw [hmv, hlu]
    exact ⟨_, hrp⟩
  · have hmv : mapView (applyFilters df p) = none := by
      unfold mapView
      rw [if_neg hll]
    have hrp : renderPass df p = Except.ok
        (mkOutputs (applyFilters df p) false []
          (listMax? (parsedGold (applyFilters df p)))) := by
      unfold renderPass
      rw [hmv, hlu]
    exact ⟨_, hrp⟩

/-- A loaded table with all fourteen columns. -/
def c7WTable : Table :=
  { cols := allCols
    rows := [{ station_id := Cell.int 1, gold_timestamp := Cell.int 5 }] }

/-- Witness for the amended C7: the render pass succeeds on a
full-schema table at default parameters. -/
theorem c7_amended_witness :
    ∃ o : Outputs,
      renderPass c7WTable (defaultParams c7WTable) = Except.ok o :=
  c7_amended c7WTable (defaultParams c7WTable) (by decide) (by decide)
    (by decide)

/-! ### Claim C10 -/

/-- Claim C10 (confirmed): the loaded table is never mutated.  Every
pandas operation the script applies after `load_data` — `copy`,
boolean-mask indexing, `assign`, `rename`, `dropna`, `head`,
`to_numeric`, `astype` — returns a new object, so each is embedded as a
pure function on table values; `scriptRun` replays the script's
assignments and shows that line 58 rebinds `f` to a copy of `df` and
every subsequent assignment rebinds only `f`.  After the full pass the
`df` binding still holds, cell for cell, the table `load_data`
returned, and the final `f` is exactly the filter pipeline's output. -/
theorem c10_df_not_mutated (df0 : Table) (p : Params) :
    (scriptRun df0 p).df = df0 ∧
    (scriptRun df0 p).f = applyFilters df0 p ∧
    Table.copy df0 = df0 :=
  ⟨rfl, rfl, rfl⟩

end CitiBike
